import Mathlib

/-
Verification of the session-coordination core of the Chess-Arena server:
the matchmaking queue (queue.py), the game-session manager (game_session.py),
the auth-token layer of the connection manager (connection_manager.py) and the
make_move handler of the websocket endpoint (server.py), shallowly embedded as
pure Lean functions.  Python dicts are modelled as insertion-ordered
association lists (lookup finds the first match, setting an existing key keeps
its position, setting a fresh key appends), wall-clock instants as integers (the code only ever subtracts instants and compares the difference against a constant, so any linearly ordered additive group is a faithful model of the float timestamps).
-/

namespace ChessArena

/-- Lookup in an insertion-ordered association list: first matching key wins
(Python dicts have unique keys, so this agrees with dict lookup). -/
def alookup {κ α : Type} [DecidableEq κ] : List (κ × α) → κ → Option α
  | [], _ => none
  | (k, v) :: rest, key => if k = key then some v else alookup rest key

/-- Dict item assignment: update an existing key in place, else append. -/
def aset {κ α : Type} [DecidableEq κ] : List (κ × α) → κ → α → List (κ × α)
  | [], key, val => [(key, val)]
  | (k, v) :: rest, key, val =>
    if k = key then (k, val) :: rest else (k, v) :: aset rest key val

/-- Dict deletion (dict.pop with default): removes the entry for the key. -/
def aerase {κ α : Type} [DecidableEq κ] : List (κ × α) → κ → List (κ × α)
  | [], _ => []
  | (k, v) :: rest, key =>
    if k = key then aerase rest key else (k, v) :: aerase rest key

/-- Embeds GameSession (game_session.py lines 13-92): connection-liveness
state of a single game.  Times are integers standing for time.time(). -/
structure GameSession where
  game_id : String
  player_connections : List (String × String)
  disconnected_players : List (String × ℤ)
  forfeit_timeout : ℤ
  is_cancelled : Bool
  winner : Option String
  deriving DecidableEq

/-- Embeds GameSession.__init__: fresh session, 60-second grace period. -/
def GameSession.init (gid : String) (pcs : List (String × String)) : GameSession :=
  { game_id := gid
    player_connections := pcs
    disconnected_players := []
    forfeit_timeout := 60
    is_cancelled := false
    winner := none }

/-- Embeds GameSession.mark_disconnected: records the disconnect instant only
if the player is not already marked (re-marking does not reset the timer). -/
def GameSession.mark_disconnected (s : GameSession) (pid : String) (now : ℤ) : GameSession :=
  if (alookup s.disconnected_players pid).isSome then s
  else { s with disconnected_players := s.disconnected_players ++ [(pid, now)] }

/-- Embeds GameSession.mark_reconnected: drops the disconnect timestamp. -/
def GameSession.mark_reconnected (s : GameSession) (pid : String) : GameSession :=
  { s with disconnected_players := aerase s.disconnected_players pid }

/-- Result of GameSession.check_forfeit: the Python function returns either a
winning player id or the sentinel string "cancelled". -/
inductive ForfeitResult
  | winner (pid : String)
  | cancelled
  deriving DecidableEq

/-- Embeds the for-loop of GameSession.check_forfeit (lines 59-65): scan the
disconnected players in insertion order and return, for the first player whose
elapsed disconnection time has reached the timeout, the first other player. -/
def forfeitScan (pcs : List (String × String)) (timeout now : ℤ) :
    List (String × ℤ) → Option String
  | [] => none
  | (pid, t) :: rest =>
    if timeout ≤ now - t then
      match (pcs.map Prod.fst).filter (fun q => decide (q ≠ pid)) with
      | [] => forfeitScan pcs timeout now rest
      | w :: _ => some w
    else forfeitScan pcs timeout now rest

/-- Embeds GameSession.check_forfeit (lines 50-72): the per-player timeout
loop runs first; only if it finds nothing is the all-disconnected cancellation
test (a length comparison in the Python) evaluated. -/
def GameSession.check_forfeit (s : GameSession) (now : ℤ) :
    GameSession × Option ForfeitResult :=
  match forfeitScan s.player_connections s.forfeit_timeout now s.disconnected_players with
  | some w => ({ s with winner := some w }, some (ForfeitResult.winner w))
  | none =>
    if s.disconnected_players.length = s.player_connections.length then
      ({ s with is_cancelled := true }, some ForfeitResult.cancelled)
    else (s, none)

/-- Status field of the dict returned by GameSessionManager.handle_disconnect. -/
inductive DisconnectStatus
  | disconnected
  | forfeit
  | cancelled
  deriving DecidableEq

/-- Embeds the dict returned by GameSessionManager.handle_disconnect. -/
structure DisconnectInfo where
  game_id : String
  disconnected_player_id : String
  status : DisconnectStatus
  winner : Option String
  deriving DecidableEq

/-- Embeds the entry of a check_session_forfeits result list. -/
structure ForfeitEvent where
  game_id : String
  status : DisconnectStatus
  winner : Option String
  deriving DecidableEq

/-- Embeds GameSessionManager (game_session.py lines 95-277): the session map
and the reverse connection-to-game index. -/
structure GameSessionManager where
  sessions : List (String × GameSession)
  connection_to_game : List (String × String)
  deriving DecidableEq

/-- Embeds GameSessionManager.create_session: store a fresh session and add a
reverse mapping for every supplied connection. -/
def GameSessionManager.create_session (m : GameSessionManager) (gid : String)
    (pcs : List (String × String)) : GameSessionManager :=
  { sessions := aset m.sessions gid (GameSession.init gid pcs)
    connection_to_game := pcs.foldl (fun acc kv => aset acc kv.2 gid) m.connection_to_game }

/-- Embeds the player lookup inside handle_disconnect (lines 163-167): first
player whose stored connection id equals the disconnecting connection. -/
def findPlayerByConn : List (String × String) → String → Option String
  | [], _ => none
  | (pid, cid) :: rest, conn =>
    if cid = conn then some pid else findPlayerByConn rest conn

/-- Embeds GameSessionManager.handle_disconnect (lines 140-194): resolve the
connection to a game and player, mark the player disconnected, then run an
immediate forfeit check and classify its outcome. -/
def GameSessionManager.handle_disconnect (m : GameSessionManager) (conn : String)
    (now : ℤ) : GameSessionManager × Option DisconnectInfo :=
  match alookup m.connection_to_game conn with
  | none => (m, none)
  | some gid =>
    match alookup m.sessions gid with
    | none => (m, none)
    | some session =>
      match findPlayerByConn session.player_connections conn with
      | none => (m, none)
      | some pid =>
        let s1 := session.mark_disconnected pid now
        let res := s1.check_forfeit now
        let m1 : GameSessionManager := { m with sessions := aset m.sessions gid res.1 }
        match res.2 with
        | some (ForfeitResult.winner w) =>
          (m1, some ⟨gid, pid, DisconnectStatus.forfeit, some w⟩)
        | some ForfeitResult.cancelled =>
          (m1, some ⟨gid, pid, DisconnectStatus.cancelled, none⟩)
        | none =>
          (m1, some ⟨gid, pid, DisconnectStatus.disconnected, none⟩)

/-- Embeds GameSessionManager.handle_reconnect (lines 196-225): fail when the
session is gone; otherwise rebind the player to the new connection, fix the
reverse index and clear the disconnect marker. -/
def GameSessionManager.handle_reconnect (m : GameSessionManager)
    (conn gid pid : String) : GameSessionManager × Bool :=
  match alookup m.sessions gid with
  | none => (m, false)
  | some session =>
    let c2g1 :=
      match alookup session.player_connections pid with
      | some oldConn => aerase m.connection_to_game oldConn
      | none => m.connection_to_game
    let s1 : GameSession :=
      { session with player_connections := aset session.player_connections pid conn }
    let s2 := s1.mark_reconnected pid
    ({ sessions := aset m.sessions gid s2
       connection_to_game := aset c2g1 conn gid }, true)

/-- Embeds GameSessionManager.check_session_forfeits (lines 227-246): sweep
every session in order, run its forfeit check (the Python mutates the shared
session object, modelled by updating the entry) and collect the events. -/
def GameSessionManager.check_session_forfeits (m : GameSessionManager) (now : ℤ) :
    GameSessionManager × List ForfeitEvent :=
  let r := m.sessions.foldl
    (fun (acc : List (String × GameSession) × List ForfeitEvent) entry =>
      let res := entry.2.check_forfeit now
      let events :=
        match res.2 with
        | some (ForfeitResult.winner w) =>
          acc.2 ++ [⟨entry.1, DisconnectStatus.forfeit, some w⟩]
        | some ForfeitResult.cancelled =>
          acc.2 ++ [⟨entry.1, DisconnectStatus.cancelled, none⟩]
        | none => acc.2
      (acc.1 ++ [(entry.1, res.1)], events))
    ([], [])
  ({ m with sessions := r.1 }, r.2)

/-- Embeds GameSessionManager.remove_session (lines 259-276): pop the session
and drop every reverse mapping of its connections. -/
def GameSessionManager.remove_session (m : GameSessionManager) (gid : String) :
    GameSessionManager :=
  match alookup m.sessions gid with
  | none => m
  | some session =>
    { sessions := aerase m.sessions gid
      connection_to_game :=
        session.player_connections.foldl (fun acc kv => aerase acc kv.2)
          m.connection_to_game }

/-- Color assigned to a player by the matchmaking queue. -/
inductive Color
  | white
  | black
  deriving DecidableEq

/-- Embeds PlayerMatchResult (queue.py lines 10-31).  Randomly generated uuid
strings are modelled by a fresh-name supply of naturals threaded through
createMatch, which keeps generated identifiers distinct by construction. -/
structure PlayerMatchResult where
  game_id : Nat
  player_id : Nat
  assigned_color : Color
  first_move : Nat
  player_mappings : List (Nat × Color)
  deriving DecidableEq

/-- Embeds MatchmakingQueue._create_match (queue.py lines 136-175): draw a
game id and two player ids from the supply, assign the two colors by a coin
flip, and build the two per-perspective results.  First move is always the
player holding white. -/
def createMatch (ctr : Nat) (flip : Bool) :
    Nat × (PlayerMatchResult × PlayerMatchResult) :=
  let gameId := ctr
  let p1 := ctr + 1
  let p2 := ctr + 2
  let c1 := if flip then Color.black else Color.white
  let c2 := if flip then Color.white else Color.black
  let mappings := [(p1, c1), (p2, c2)]
  let fm := if c1 = Color.white then p1 else p2
  (ctr + 3,
   ({ game_id := gameId, player_id := p1, assigned_color := c1, first_move := fm,
      player_mappings := mappings },
    { game_id := gameId, player_id := p2, assigned_color := c2, first_move := fm,
      player_mappings := mappings }))

/-- Projection of createMatch to the per-perspective result pair. -/
def matchPair (ctr : Nat) (flip : Bool) : PlayerMatchResult × PlayerMatchResult :=
  (createMatch ctr flip).2

/-- Embeds QueueEntry (queue.py lines 34-46).  The asyncio future is modelled
by a unique token (identity, for the Python is-comparison in the timeout
branch) plus its done flag as observed under the lock. -/
structure QueueEntry where
  connection_id : String
  token : Nat
  fut_done : Bool
  deriving DecidableEq

/-- Outcome of the locked section of join_queue: either the caller occupied
the slot and will wait on its future, or it was rejected immediately (the
self-pairing case, which returns None), or it matched the waiting player. -/
inductive JoinLockOutcome
  | wait (entry : QueueEntry)
  | selfReject
  | matched (myResult : PlayerMatchResult)
  deriving DecidableEq

/-- Result of the locked section of join_queue: the slot afterwards, the
outcome for the caller, which future (by token) this call fulfilled and with
what value, and the fresh-name counter afterwards. -/
structure JoinLockStep where
  slot : Option QueueEntry
  outcome : JoinLockOutcome
  fulfilled : Option (Nat × PlayerMatchResult)
  ctr : Nat
  deriving DecidableEq

/-- Embeds the locked section of MatchmakingQueue.join_queue (queue.py lines
75-100): empty slot makes the caller the waiting player; a live waiting entry
with the same connection id is rejected without being disturbed; a live entry
with a different connection id is matched, its future fulfilled with the first
perspective, the slot cleared, the second perspective returned; a dead (done)
entry is replaced by the caller. -/
def joinQueueLock (slot : Option QueueEntry) (conn : String) (freshTok ctr : Nat)
    (flip : Bool) : JoinLockStep :=
  match slot with
  | none =>
    let e : QueueEntry := ⟨conn, freshTok, false⟩
    ⟨some e, JoinLockOutcome.wait e, none, ctr⟩
  | some e =>
    if e.fut_done = false then
      if e.connection_id = conn then
        ⟨some e, JoinLockOutcome.selfReject, none, ctr⟩
      else
        let r := createMatch ctr flip
        ⟨none, JoinLockOutcome.matched r.2.2, some (e.token, r.2.1), r.1⟩
    else
      let e2 : QueueEntry := ⟨conn, freshTok, false⟩
      ⟨some e2, JoinLockOutcome.wait e2, none, ctr⟩

/-- Reason the wait of join_queue resumed: the future was fulfilled with a
match, asyncio.wait_for timed out, or the wait was cancelled. -/
inductive WakeReason
  | fulfilled (r : PlayerMatchResult)
  | timedOut
  | cancelled
  deriving DecidableEq

/-- Embeds the post-wait section of MatchmakingQueue.join_queue (queue.py
lines 102-116): a fulfilled future returns its result; the timeout branch
clears the slot only when it still holds this very entry (the Python
is-identity test, modelled by token equality) and returns None; the
CancelledError branch returns None and does not touch the slot. -/
def joinQueueWake (slot : Option QueueEntry) (entry : QueueEntry) :
    WakeReason → Option QueueEntry × Option PlayerMatchResult
  | WakeReason.fulfilled r => (slot, some r)
  | WakeReason.timedOut =>
    (match slot with
     | some e => if e.token = entry.token then none else some e
     | none => none,
     none)
  | WakeReason.cancelled => (slot, none)

/-- Result of remove_from_queue: the slot afterwards, whether an entry was
removed, and the token of the future this call cancelled, if any. -/
structure RemoveStep where
  slot : Option QueueEntry
  removed : Bool
  cancelledTok : Option Nat
  deriving DecidableEq

/-- Embeds MatchmakingQueue.remove_from_queue (queue.py lines 118-134): when
the slot holds an entry of this connection, cancel its future (unless already
done) and clear the slot; otherwise report that nothing was removed. -/
def removeFromQueue (slot : Option QueueEntry) (conn : String) : RemoveStep :=
  match slot with
  | none => ⟨none, false, none⟩
  | some e =>
    if e.connection_id = conn then
      ⟨none, true, if e.fut_done = false then some e.token else none⟩
    else ⟨some e, false, none⟩

/-- Embeds the auth-token store of ConnectionManager: game id to a map from
player id to token string. -/
def lookup2 (tokens : List (String × List (String × String))) (g p : String) :
    Option String :=
  match alookup tokens g with
  | none => none
  | some inner => alookup inner p

/-- Embeds ConnectionManager.generate_auth_token (connection_manager.py lines
145-160).  The random token_urlsafe string is a parameter; storing overwrites
any prior token for the (game, player) pair. -/
def generate_auth_token (tokens : List (String × List (String × String)))
    (g p tok : String) : List (String × List (String × String)) :=
  aset tokens g (aset ((alookup tokens g).getD []) p tok)

/-- Embeds ConnectionManager.validate_auth_token (connection_manager.py lines
162-176): exact comparison of the presented token against the stored one; a
missing game or player entry compares unequal to any presented string. -/
def validate_auth_token (tokens : List (String × List (String × String)))
    (g p tok : String) : Bool :=
  decide (lookup2 tokens g p = some tok)

/-- Embeds the parts of ChessBoard (board.py) the make_move handler consults:
the player-to-color mapping, the side to move, and the pushed move history
(standing for the external rules-engine position). -/
structure BoardModel where
  player_mappings : List (String × Color)
  turnWhite : Bool
  history : List String
  deriving DecidableEq

/-- Embeds ChessBoard.get_current_turn. -/
def BoardModel.current_turn (b : BoardModel) : Color :=
  if b.turnWhite then Color.white else Color.black

/-- Embeds ChessBoard.get_player_color. -/
def BoardModel.get_player_color (b : BoardModel) (pid : String) : Option Color :=
  alookup b.player_mappings pid

/-- Embeds ChessBoard.is_players_turn. -/
def BoardModel.is_players_turn (b : BoardModel) (pid : String) : Bool :=
  match b.get_player_color pid with
  | none => false
  | some c => decide (c = b.current_turn)

/-- Embeds a successful ChessBoard.make_move: push the move to the engine and
hand the turn to the other side. -/
def BoardModel.push_move (b : BoardModel) (mv : String) : BoardModel :=
  { b with history := b.history ++ [mv], turnWhite := !b.turnWhite }

/-- Embeds the winner lookup of the disqualification branch (server.py lines
704-707): first player mapped to the given color. -/
def findPlayerByColor : List (String × Color) → Color → Option String
  | [], _ => none
  | (pid, c) :: rest, col =>
    if c = col then some pid else findPlayerByColor rest col

/-- Outbound messages the make_move handler emits: an error to the sender, a
game_over broadcast with status disqualified to the whole game, or a move_made
broadcast to the whole game. -/
inductive OutMsg
  | errorMsg (toConn : String)
  | gameOverDisqualified (gid : String) (winner : Option String) (disq : String)
  | moveMade (gid : String) (mv : String)
  deriving DecidableEq

/-- Server-side state the make_move handler reads and writes: auth tokens,
boards, the per-game turn-start tracking and the session manager. -/
structure MakeMoveState where
  authTokens : List (String × List (String × String))
  games : List (String × BoardModel)
  move_start_times : List (String × List (String × ℤ))
  mgr : GameSessionManager
  deriving DecidableEq

/-- Embeds the tail of the make_move handler after the time check (server.py
lines 728-777): attempt the move against the rules engine (legality decided by
the external oracle), report an illegal move to the sender only, and on
success record the next turn start when a think-time is configured and the
game is not over, then broadcast move_made. -/
def applyMovePhase (searchTime : Option ℤ) (legal : BoardModel → String → Bool)
    (gover : BoardModel → Bool) (st : MakeMoveState) (conn : String) (now : ℤ)
    (mv gid : String) (board : BoardModel) : MakeMoveState × List OutMsg :=
  if legal board mv = false then (st, [OutMsg.errorMsg conn])
  else
    let board1 := board.push_move mv
    let st1 : MakeMoveState := { st with games := aset st.games gid board1 }
    let st2 :=
      match searchTime with
      | none => st1
      | some _ =>
        if gover board1 then st1
        else
          match findPlayerByColor board1.player_mappings board1.current_turn with
          | none => st1
          | some nextPid =>
            let inner := aset ((alookup st1.move_start_times gid).getD []) nextPid now
            { st1 with move_start_times := aset st1.move_start_times gid inner }
    (st2, [OutMsg.moveMade gid mv])

/-- Embeds the make_move branch of websocket_endpoint (server.py lines
652-783): token validation, board lookup, turn validation, then the
think-time check — when a limit is configured and a turn start is tracked and
the elapsed time strictly exceeds the limit, the player is disqualified (the
opposite-color player wins, one game_over broadcast goes to the game, the
session is removed and the per-game tracking entry deleted) and the move is
never applied; otherwise the move proceeds to the apply phase. -/
def handleMakeMove (searchTime : Option ℤ) (legal : BoardModel → String → Bool)
    (gover : BoardModel → Bool) (st : MakeMoveState) (conn : String) (now : ℤ)
    (mv gid pid tok : String) : MakeMoveState × List OutMsg :=
  if validate_auth_token st.authTokens gid pid tok = false then
    (st, [OutMsg.errorMsg conn])
  else
    match alookup st.games gid with
    | none => (st, [OutMsg.errorMsg conn])
    | some board =>
      if board.is_players_turn pid = false then (st, [OutMsg.errorMsg conn])
      else
        let tracked : Option ℤ :=
          match alookup st.move_start_times gid with
          | none => none
          | some inner => alookup inner pid
        match searchTime, tracked with
        | some limit, some t0 =>
          if limit < now - t0 then
            let wcol :=
              if board.get_player_color pid = some Color.white then Color.black
              else Color.white
            ({ st with
                mgr := st.mgr.remove_session gid,
                move_start_times := aerase st.move_start_times gid },
             [OutMsg.gameOverDisqualified gid (findPlayerByColor board.player_mappings wcol) pid])
          else applyMovePhase searchTime legal gover st conn now mv gid board
        | _, _ => applyMovePhase searchTime legal gover st conn now mv gid board

/-- Embeds the session-creation part of the match-found branch of
websocket_endpoint (server.py lines 608-627): the session is created holding
only the current player, then the waiting player is added directly to the
session object only when the queue slot still held an entry at the re-check —
which the matching step has already cleared, so slotConn is none in the normal
flow. -/
def serverCreateSessionStep (m : GameSessionManager) (gid pid conn : String)
    (matchPlayerIds : List String) (slotConn : Option String) : GameSessionManager :=
  let m1 := m.create_session gid [(pid, conn)]
  match slotConn with
  | none => m1
  | some wconn =>
    match matchPlayerIds.filter (fun q => decide (q ≠ pid)) with
    | [] => m1
    | wpid :: _ =>
      match alookup m1.sessions gid with
      | none => m1
      | some session =>
        let s1 : GameSession :=
          { session with player_connections := aset session.player_connections wpid wconn }
        { m1 with sessions := aset m1.sessions gid s1 }

/-- Complement of a color, the role of the winner in a disqualification. -/
def oppColor : Color → Color
  | Color.white => Color.black
  | Color.black => Color.white

/-- Session of a two-player game in which exactly the first player has been
marked disconnected at instant d. -/
def oneDisconnected (gid p q cn1 cn2 : String) (d : ℤ) : GameSession :=
  (GameSession.init gid [(p, cn1), (q, cn2)]).mark_disconnected p d

/-- Manager holding a single two-player session whose first player is marked
disconnected at instant d. -/
def reconnectScenario (gid p q cn1 cn2 : String) (d : ℤ)
    (c2g : List (String × String)) : GameSessionManager :=
  GameSessionManager.mk [(gid, oneDisconnected gid p q cn1 cn2 d)] c2g

/-- Concrete board for the disqualification scenario: player p is white to
move, q is black, no moves pushed yet. -/
def c2Board : BoardModel :=
  BoardModel.mk [("p", Color.white), ("q", Color.black)] true []

/-- Concrete server state for the disqualification scenario: a stored token
for (g, p), the board, a tracked turn start for p at instant 0, and a live
session for game g. -/
def c2State : MakeMoveState :=
  MakeMoveState.mk [("g", [("p", "T")])] [("g", c2Board)] [("g", [("p", 0)])]
    (GameSessionManager.mk [("g", GameSession.init "g" [("p", "w1"), ("q", "w2")])]
      [("w1", "g"), ("w2", "g")])

theorem alookup_aset_self {κ α : Type} [DecidableEq κ] (l : List (κ × α)) (k : κ)
    (v : α) : alookup (aset l k v) k = some v := by
  induction l with
  | nil => simp [aset, alookup]
  | cons hd tl ih =>
    obtain ⟨k1, v1⟩ := hd
    by_cases h : k1 = k
    · simp [aset, alookup, h]
    · simp [aset, alookup, h, ih]

theorem alookup_aset_ne {κ α : Type} [DecidableEq κ] (l : List (κ × α)) (k k2 : κ)
    (v : α) (h : k2 ≠ k) : alookup (aset l k v) k2 = alookup l k2 := by
  induction l with
  | nil => simp [aset, alookup, Ne.symm h]
  | cons hd tl ih =>
    obtain ⟨k1, v1⟩ := hd
    by_cases h1 : k1 = k
    · subst h1
      simp [aset, alookup, Ne.symm h]
    · simp only [aset, if_neg h1]
      by_cases h2 : k1 = k2
      · simp [alookup, h2]
      · simp [alookup, h2, ih]

theorem alookup_aerase_self {κ α : Type} [DecidableEq κ] (l : List (κ × α)) (k : κ) :
    alookup (aerase l k) k = none := by
  induction l with
  | nil => rfl
  | cons hd tl ih =>
    obtain ⟨k1, v1⟩ := hd
    by_cases h : k1 = k
    · simp [aerase, h, ih]
    · simp [aerase, alookup, h, ih]

theorem remove_session_lookup_none (m : GameSessionManager) (gid : String) :
    alookup (m.remove_session gid).sessions gid = none := by
  unfold GameSessionManager.remove_session
  cases h : alookup m.sessions gid with
  | none => simp [h]
  | some s => simp [h, alookup_aerase_self]

theorem forfeitScan_none_of_grace (pcs : List (String × String)) (timeout now : ℤ)
    (l : List (String × ℤ)) (h : ∀ p t, (p, t) ∈ l → now - t < timeout) :
    forfeitScan pcs timeout now l = none := by
  induction l with
  | nil => rfl
  | cons hd tl ih =>
    obtain ⟨p, t⟩ := hd
    have hpt : now - t < timeout := h p t (List.mem_cons_self _ _)
    have hcond : ¬ (timeout ≤ now - t) := not_le.mpr hpt
    simp only [forfeitScan, if_neg hcond]
    exact ih (fun p2 t2 hm => h p2 t2 (List.mem_cons_of_mem _ hm))

/-- Claim C1, counterexample: in a two-player session with every participant
marked disconnected, a forfeit check does NOT report cancelled once a
participant has been disconnected for the full grace period.  Driving
handle_disconnect as the server does — player 1 disconnects at time 0, player
2 disconnects at time 61 — the second call reports a forfeit with winner p2,
not cancellation, because the per-player timeout loop of check_forfeit runs
before the all-disconnected test. -/
theorem c1_counterexample :
    ((((GameSessionManager.mk [] []).create_session "g"
        [("p1", "c1"), ("p2", "c2")]).handle_disconnect "c1" 0).1.handle_disconnect
        "c2" 61).2 =
      some ⟨"g", "p2", DisconnectStatus.forfeit, some "p2"⟩ ∧
    (((((GameSessionManager.mk [] []).create_session "g"
        [("p1", "c1"), ("p2", "c2")]).handle_disconnect "c1" 0).1.handle_disconnect
        "c2" 61).2.map DisconnectInfo.status) ≠ some DisconnectStatus.cancelled := by
  decide

/-- Claim C1 (amended): when every participant of a session is marked
disconnected AND no disconnected participant has yet been disconnected for the
full grace period, check_forfeit reports cancelled and never a forfeit winner.
When some participant has reached the grace period, the per-player timeout
loop fires first and a forfeit winner is returned instead (see the
counterexample). -/
theorem c1_amended_cancellation
    (s : GameSession) (now : ℤ)
    (hall : s.disconnected_players.length = s.player_connections.length)
    (hgrace : s.disconnected_players.all
      (fun pt => decide (now - pt.2 < s.forfeit_timeout)) = true) :
    (s.check_forfeit now).2 = some ForfeitResult.cancelled ∧
    ∀ w, (s.check_forfeit now).2 ≠ some (ForfeitResult.winner w) := by
  have hg : ∀ p t, (p, t) ∈ s.disconnected_players → now - t < s.forfeit_timeout := by
    intro p t hm
    have := List.all_eq_true.mp hgrace (p, t) hm
    simpa using this
  have hscan := forfeitScan_none_of_grace s.player_connections s.forfeit_timeout now
    s.disconnected_players hg
  constructor
  · simp [GameSession.check_forfeit, hscan, hall]
  · intro w
    simp [GameSession.check_forfeit, hscan, hall]

/-- Claim C1 witness: a session with both players disconnected within the
grace period is reported cancelled. -/
theorem c1_witness :
    ((((GameSession.init "g" [("p1", "c1"), ("p2", "c2")]).mark_disconnected "p1"
        0).mark_disconnected "p2" 5).check_forfeit 10).2 =
      some ForfeitResult.cancelled :=
  (c1_amended_cancellation
    (((GameSession.init "g" [("p1", "c1"), ("p2", "c2")]).mark_disconnected "p1"
        0).mark_disconnected "p2" 5) 10 (by decide) (by decide)).1

/-- Claim C3: in a two-player session with exactly one disconnected
participant, re-marking the disconnected participant does not reset the
recorded timestamp; a forfeit check strictly before 60 seconds from the first
observation yields no outcome; a check at or after 60 seconds yields a forfeit
in favor of the other participant (recorded as winner), and a sweep over a
manager holding this session reports exactly one forfeit event. -/
theorem c3_forfeit_timing (gid p q cn1 cn2 : String) (d : ℤ) (hpq : p ≠ q) :
    (∀ d2, (oneDisconnected gid p q cn1 cn2 d).mark_disconnected p d2 =
      oneDisconnected gid p q cn1 cn2 d) ∧
    (∀ t, t - d < 60 → ((oneDisconnected gid p q cn1 cn2 d).check_forfeit t).2 = none) ∧
    (∀ t, 60 ≤ t - d →
      ((oneDisconnected gid p q cn1 cn2 d).check_forfeit t).2 =
        some (ForfeitResult.winner q) ∧
      ((oneDisconnected gid p q cn1 cn2 d).check_forfeit t).1.winner = some q) ∧
    (∀ t c2g, 60 ≤ t - d →
      ((GameSessionManager.mk [(gid, oneDisconnected gid p q cn1 cn2 d)]
          c2g).check_session_forfeits t).2 =
        [⟨gid, DisconnectStatus.forfeit, some q⟩]) := by
  have hqp : q ≠ p := Ne.symm hpq
  refine ⟨?_, ?_, ?_, ?_⟩
  · intro d2
    simp [oneDisconnected, GameSession.mark_disconnected, GameSession.init, alookup]
  · intro t ht
    have hcond : ¬ ((60 : ℤ) ≤ t - d) := not_le.mpr ht
    simp [oneDisconnected, GameSession.mark_disconnected, GameSession.init,
      GameSession.check_forfeit, forfeitScan, alookup, hcond]
  · intro t ht
    simp [oneDisconnected, GameSession.mark_disconnected, GameSession.init,
      GameSession.check_forfeit, forfeitScan, alookup, ht, hqp]
  · intro t c2g ht
    simp [GameSessionManager.check_session_forfeits, oneDisconnected,
      GameSession.mark_disconnected, GameSession.init, GameSession.check_forfeit,
      forfeitScan, alookup, ht, hqp]

/-- Claim C3 witness: with one player disconnected at time 0, the check at
time 59 yields nothing and the check at time 61 yields a forfeit for the
other player. -/
theorem c3_witness :
    ((oneDisconnected "g" "p1" "p2" "c1" "c2" 0).check_forfeit 59).2 = none ∧
    ((oneDisconnected "g" "p1" "p2" "c1" "c2" 0).check_forfeit 61).2 =
      some (ForfeitResult.winner "p2") :=
  ⟨(c3_forfeit_timing "g" "p1" "p2" "c1" "c2" 0 (by decide)).2.1 59 (by norm_num),
   ((c3_forfeit_timing "g" "p1" "p2" "c1" "c2" 0 (by decide)).2.2.1 61 (by norm_num)).1⟩

/-- Claim C5: when the queue slot holds a live waiting entry for the same
connection id, a second join from that connection is rejected inside the lock:
it returns no match immediately (no wait), the slot and its entry are left
untouched, no future is fulfilled by the call (so the first call can only
resolve through a different connection or its timeout), and the fresh-name
supply is not consumed. -/
theorem c5_self_pairing_rejected (e : QueueEntry) (freshTok ctr : Nat) (flip : Bool)
    (hlive : e.fut_done = false) :
    joinQueueLock (some e) e.connection_id freshTok ctr flip =
      ⟨some e, JoinLockOutcome.selfReject, none, ctr⟩ := by
  simp [joinQueueLock, hlive]

/-- Claim C5 witness: a concrete duplicate join is rejected with the slot
unchanged. -/
theorem c5_witness :
    joinQueueLock (some (QueueEntry.mk "c1" 0 false)) "c1" 7 3 true =
      ⟨some (QueueEntry.mk "c1" 0 false), JoinLockOutcome.selfReject, none, 3⟩ :=
  c5_self_pairing_rejected (QueueEntry.mk "c1" 0 false) 7 3 true rfl

/-- Claim C4, counterexample: when the wait of join_queue is interrupted by
cancellation while the slot still holds the caller's own entry, the call
returns None but does NOT clear the slot back to empty — the CancelledError
branch, unlike the timeout branch, leaves the slot untouched. -/
theorem c4_counterexample :
    joinQueueWake (some ⟨"c1", 0, false⟩) ⟨"c1", 0, false⟩ WakeReason.cancelled =
      (some ⟨"c1", 0, false⟩, none) ∧
    (joinQueueWake (some ⟨"c1", 0, false⟩) ⟨"c1", 0, false⟩ WakeReason.cancelled).1 ≠
      none := by
  decide

/-- Claim C4 (amended): a join_queue wait interrupted by cancellation returns
no match without raising, but the call itself leaves the queue slot exactly as
it was — it is the separate remove_from_queue call, issued by the disconnect
path (and the usual initiator of the cancellation), that clears the slot, and
it does so exactly when the slot still holds this connection's entry, so no
dangling waiter remains once the disconnect handling has run. -/
theorem c4_amended_cancel_then_removal (slot : Option QueueEntry) (e : QueueEntry)
    (conn : String) :
    joinQueueWake slot e WakeReason.cancelled = (slot, none) ∧
    (∀ e2, slot = some e2 → e2.connection_id = conn →
      removeFromQueue slot conn =
        ⟨none, true, if e2.fut_done = false then some e2.token else none⟩) ∧
    (∀ e2, slot = some e2 → e2.connection_id ≠ conn →
      removeFromQueue slot conn = ⟨some e2, false, none⟩) ∧
    (slot = none → removeFromQueue slot conn = ⟨none, false, none⟩) := by
  refine ⟨rfl, ?_, ?_, ?_⟩
  · intro e2 hs hc
    subst hs
    simp [removeFromQueue, hc]
  · intro e2 hs hc
    subst hs
    simp [removeFromQueue, hc]
  · intro hs
    subst hs
    rfl

/-- Claim C4 witness: a concrete cancelled wait leaves the slot as it was, and
the subsequent removal call clears it and cancels the pending future. -/
theorem c4_witness :
    joinQueueWake (some ⟨"c1", 5, false⟩) ⟨"c1", 5, false⟩ WakeReason.cancelled =
      (some ⟨"c1", 5, false⟩, none) ∧
    removeFromQueue (some ⟨"c1", 5, false⟩) "c1" = ⟨none, true, some 5⟩ :=
  ⟨(c4_amended_cancel_then_removal (some ⟨"c1", 5, false⟩) ⟨"c1", 5, false⟩ "c1").1,
   (c4_amended_cancel_then_removal (some ⟨"c1", 5, false⟩) ⟨"c1", 5, false⟩
      "c1").2.1 ⟨"c1", 5, false⟩ rfl rfl⟩

/-- Claim C6, code evaluation at the failing input: the matching step clears
the queue slot, so the server's later re-inspection of the slot observes none
and the session-creation step of the match-found handler produces a session
whose participant set is only the single current player, not the two
participants of the match. -/
theorem c6_single_participant_session :
    (joinQueueLock (some ⟨"c1", 0, false⟩) "c2" 1 0 true).slot = none ∧
    ((serverCreateSessionStep (GameSessionManager.mk [] []) "g" "p2" "c2"
        ["p1", "p2"] none).sessions.map
      (fun kv => (kv.1, kv.2.player_connections.map Prod.fst))) = [("g", ["p2"])] := by
  decide

/-- Claim C7: reconnecting a participant of an existing two-player session
succeeds, clears that participant's disconnect timestamp immediately (so any
later forfeit check of the resulting session yields no outcome when no other
participant is disconnected), a forfeit check never modifies the disconnect
timestamps of any session, and handle_reconnect fails exactly when the session
no longer exists. -/
theorem c7_reconnect_clears_timer (gid p q cn1 cn2 nc : String) (d : ℤ)
    (c2g : List (String × String)) :
    ((reconnectScenario gid p q cn1 cn2 d c2g).handle_reconnect nc gid p).2 = true ∧
    (∃ s2, alookup (((reconnectScenario gid p q cn1 cn2 d
        c2g).handle_reconnect nc gid p).1).sessions gid = some s2 ∧
      s2.disconnected_players = [] ∧
      (∀ t, (s2.check_forfeit t).2 = none)) ∧
    (∀ s : GameSession, ∀ t,
      ((s.check_forfeit t).1).disconnected_players = s.disconnected_players) ∧
    (∀ m : GameSessionManager, ∀ conn g pl,
      ((m.handle_reconnect conn g pl).2 = true ↔ (alookup m.sessions g).isSome)) := by
  refine ⟨?_, ?_, ?_, ?_⟩
  · simp [reconnectScenario, oneDisconnected, GameSessionManager.handle_reconnect,
      alookup]
  · refine ⟨⟨gid, [(p, nc), (q, cn2)], [], 60, false, none⟩, ?_, rfl, ?_⟩
    · simp [reconnectScenario, oneDisconnected, GameSessionManager.handle_reconnect,
        GameSession.init, GameSession.mark_disconnected, GameSession.mark_reconnected,
        alookup, aset, aerase]
    · intro t
      simp [GameSession.check_forfeit, forfeitScan]
  · intro s t
    unfold GameSession.check_forfeit
    cases h : forfeitScan s.player_connections s.forfeit_timeout t
        s.disconnected_players with
    | some w => simp
    | none =>
      by_cases hl : s.disconnected_players.length = s.player_connections.length
      · simp [hl]
      · simp [hl]
  · intro m conn g pl
    unfold GameSessionManager.handle_reconnect
    cases h : alookup m.sessions g with
    | none => simp [h]
    | some s => simp [h]

/-- Claim C7 witness: a concrete disconnected player reconnects successfully. -/
theorem c7_witness :
    ((reconnectScenario "g" "p1" "p2" "c1" "c2" 0 []).handle_reconnect "c3" "g"
        "p1").2 = true :=
  (c7_reconnect_clears_timer "g" "p1" "p2" "c1" "c2" "c3" 0 []).1

/-- Claim C8: the two per-perspective results of a created match carry
different colors whose union is exactly white and black, distinct player ids,
a first-to-act id equal to the id of whichever player was assigned white (in
particular the first mover maps to white in the shared player mapping), and
agree on game id, first mover and the full player mapping, differing only in
which id and color are presented as self. -/
theorem c8_match_result_pair (ctr : Nat) (flip : Bool) :
    (matchPair ctr flip).1.assigned_color ≠ (matchPair ctr flip).2.assigned_color ∧
    ((matchPair ctr flip).1.assigned_color = Color.white ∧
        (matchPair ctr flip).2.assigned_color = Color.black ∨
      (matchPair ctr flip).1.assigned_color = Color.black ∧
        (matchPair ctr flip).2.assigned_color = Color.white) ∧
    (matchPair ctr flip).1.player_id ≠ (matchPair ctr flip).2.player_id ∧
    ((matchPair ctr flip).1.assigned_color = Color.white →
      (matchPair ctr flip).1.first_move = (matchPair ctr flip).1.player_id) ∧
    ((matchPair ctr flip).2.assigned_color = Color.white →
      (matchPair ctr flip).2.first_move = (matchPair ctr flip).2.player_id) ∧
    alookup (matchPair ctr flip).1.player_mappings (matchPair ctr flip).1.first_move =
      some Color.white ∧
    (matchPair ctr flip).1.game_id = (matchPair ctr flip).2.game_id ∧
    (matchPair ctr flip).1.first_move = (matchPair ctr flip).2.first_move ∧
    (matchPair ctr flip).1.player_mappings = (matchPair ctr flip).2.player_mappings := by
  cases flip <;> simp [matchPair, createMatch, alookup]

/-- Claim C8 witness: for a concrete supply and coin flip the first result
holds white and is the first mover. -/
theorem c8_witness :
    (matchPair 0 false).1.assigned_color = Color.white ∧
    (matchPair 0 false).1.first_move = (matchPair 0 false).1.player_id :=
  ⟨rfl, (c8_match_result_pair 0 false).2.2.2.1 rfl⟩

/-- Claim C9: token validation succeeds exactly when the presented token
equals the token stored for that precise (game, participant) pair; a missing
stored token rejects; any pair whose stored token differs from the presented
one rejects; and issuing a token stores it for exactly its own pair, leaving
every other pair's stored token unchanged. -/
theorem c9_token_exact_match (tokens : List (String × List (String × String)))
    (g p tok : String) :
    (validate_auth_token tokens g p tok = true ↔ lookup2 tokens g p = some tok) ∧
    (lookup2 tokens g p = none → validate_auth_token tokens g p tok = false) ∧
    (∀ g2 p2, lookup2 tokens g2 p2 ≠ some tok →
      validate_auth_token tokens g2 p2 tok = false) ∧
    lookup2 (generate_auth_token tokens g p tok) g p = some tok ∧
    (∀ g2 p2, g2 ≠ g →
      lookup2 (generate_auth_token tokens g p tok) g2 p2 = lookup2 tokens g2 p2) ∧
    (∀ p2, p2 ≠ p →
      lookup2 (generate_auth_token tokens g p tok) g p2 = lookup2 tokens g p2) := by
  refine ⟨?_, ?_, ?_, ?_, ?_, ?_⟩
  · simp [validate_auth_token]
  · intro h
    simp [validate_auth_token, h]
  · intro g2 p2 h
    simp [validate_auth_token, h]
  · simp [generate_auth_token, lookup2, alookup_aset_self]
  · intro g2 p2 h
    simp [generate_auth_token, lookup2, alookup_aset_ne _ _ _ _ h]
  · intro p2 h
    cases halt : alookup tokens g with
    | none =>
      simp [generate_auth_token, lookup2, halt, alookup_aset_self,
        alookup_aset_ne _ _ _ _ h, alookup, Ne.symm h]
    | some inner =>
      simp [generate_auth_token, lookup2, halt, alookup_aset_self,
        alookup_aset_ne _ _ _ _ h]

/-- Claim C9 witness: a concrete stored token validates for its own pair and
is rejected for a different game and for a different participant. -/
theorem c9_witness :
    validate_auth_token [("g1", [("p", "AAA")])] "g1" "p" "AAA" = true ∧
    validate_auth_token [("g1", [("p", "AAA")])] "g2" "p" "AAA" = false ∧
    validate_auth_token [("g1", [("p", "AAA")])] "g1" "q" "AAA" = false :=
  ⟨(c9_token_exact_match [("g1", [("p", "AAA")])] "g1" "p" "AAA").1.mpr (by decide),
   (c9_token_exact_match [("g1", [("p", "AAA")])] "g1" "p" "AAA").2.2.1 "g2" "p"
     (by decide),
   (c9_token_exact_match [("g1", [("p", "AAA")])] "g1" "p" "AAA").2.2.1 "g1" "q"
     (by decide)⟩

/-- Claim C10: when a solitary waiter's wait times out, the post-wait section
returns no match and clears the slot exactly when it still holds that very
entry (leaving a different entry untouched), and a subsequent join on the now
empty slot installs the new connection as the sole waiter instead of matching
it against the timed-out request. -/
theorem c10_timeout_cleanup (e e2 : QueueEntry) (conn2 : String) (ftok ctr : Nat)
    (flip : Bool) (hne : e2.token ≠ e.token) :
    joinQueueWake (some e) e WakeReason.timedOut = (none, none) ∧
    joinQueueWake (some e2) e WakeReason.timedOut = (some e2, none) ∧
    joinQueueLock none conn2 ftok ctr flip =
      ⟨some ⟨conn2, ftok, false⟩, JoinLockOutcome.wait ⟨conn2, ftok, false⟩, none,
        ctr⟩ := by
  refine ⟨?_, ?_, rfl⟩
  · simp [joinQueueWake]
  · simp [joinQueueWake, hne]

/-- Claim C10 witness: a concrete timed-out waiter leaves the slot empty and a
fresh connection then occupies it. -/
theorem c10_witness :
    joinQueueWake (some ⟨"a", 0, false⟩) ⟨"a", 0, false⟩ WakeReason.timedOut =
      (none, none) ∧
    joinQueueLock none "b" 1 0 false =
      ⟨some ⟨"b", 1, false⟩, JoinLockOutcome.wait ⟨"b", 1, false⟩, none, 0⟩ :=
  ⟨(c10_timeout_cleanup ⟨"a", 0, false⟩ ⟨"x", 9, false⟩ "b" 1 0 false (by decide)).1,
   (c10_timeout_cleanup ⟨"a", 0, false⟩ ⟨"x", 9, false⟩ "b" 1 0 false (by decide)).2.2⟩

/-- Claim C2: with a maximum think-time configured, a stored token, an
existing board, the mover on turn with a tracked turn start, and a two-player
complementary color mapping: if the elapsed turn time strictly exceeds the
limit, the move is never applied (the board table is unchanged), the only
output is a single game_over broadcast with status disqualified naming the
opposing-color participant as winner, the session is removed from the manager
and the per-game turn-start entry is deleted; if the elapsed time does not
strictly exceed the limit, no disqualification occurs and the handler proceeds
to the move-application phase, emitting either an illegal-move error to the
sender or a move_made broadcast. -/
theorem c2_time_limit_disqualification
    (limit now t0 : ℤ) (legal : BoardModel → String → Bool)
    (gover : BoardModel → Bool) (st : MakeMoveState)
    (conn mv gid pid tok q : String) (board : BoardModel) (c : Color)
    (inner : List (String × ℤ))
    (htok : validate_auth_token st.authTokens gid pid tok = true)
    (hgame : alookup st.games gid = some board)
    (hturn : board.is_players_turn pid = true)
    (hmap : board.player_mappings = [(pid, c), (q, oppColor c)])
    (htr1 : alookup st.move_start_times gid = some inner)
    (htr2 : alookup inner pid = some t0) :
    (limit < now - t0 →
      (handleMakeMove (some limit) legal gover st conn now mv gid pid tok).1.games =
        st.games ∧
      (handleMakeMove (some limit) legal gover st conn now mv gid pid tok).2 =
        [OutMsg.gameOverDisqualified gid (some q) pid] ∧
      alookup (handleMakeMove (some limit) legal gover st conn now mv gid pid
        tok).1.mgr.sessions gid = none ∧
      alookup (handleMakeMove (some limit) legal gover st conn now mv gid pid
        tok).1.move_start_times gid = none) ∧
    (¬ limit < now - t0 →
      handleMakeMove (some limit) legal gover st conn now mv gid pid tok =
        applyMovePhase (some limit) legal gover st conn now mv gid board ∧
      ((handleMakeMove (some limit) legal gover st conn now mv gid pid tok).2 =
          [OutMsg.errorMsg conn] ∨
        (handleMakeMove (some limit) legal gover st conn now mv gid pid tok).2 =
          [OutMsg.moveMade gid mv])) := by
  constructor
  · intro hlt
    have hcol : board.get_player_color pid = some c := by
      simp [BoardModel.get_player_color, hmap, alookup]
    have hwin : findPlayerByColor board.player_mappings
        (if board.get_player_color pid = some Color.white then Color.black
         else Color.white) = some q := by
      cases c <;> simp [hcol, hmap, findPlayerByColor, oppColor]
    refine ⟨?_, ?_, ?_, ?_⟩ <;>
      simp [handleMakeMove, htok, hgame, hturn, htr1, htr2, hlt, hwin,
        remove_session_lookup_none, alookup_aerase_self]
  · intro hlt
    refine ⟨?_, ?_⟩
    · simp [handleMakeMove, htok, hgame, hturn, htr1, htr2, hlt]
    · cases hleg : legal board mv <;>
        simp [handleMakeMove, applyMovePhase, htok, hgame, hturn, htr1, htr2,
          hlt, hleg]

/-- Claim C2 witness: with a 5-unit limit and a turn that started at instant 0
being answered at instant 10, the concrete handler emits exactly the
disqualification broadcast with the black player as winner, and with the same
turn answered at instant 3 the handler proceeds to the move phase. -/
theorem c2_witness :
    (handleMakeMove (some 5) (fun _ _ => true) (fun _ => false) c2State "k" 10
        "e4" "g" "p" "T").2 =
      [OutMsg.gameOverDisqualified "g" (some "q") "p"] ∧
    ((handleMakeMove (some 5) (fun _ _ => true) (fun _ => false) c2State "k" 3
        "e4" "g" "p" "T").2 =
      [OutMsg.errorMsg "k"] ∨
    (handleMakeMove (some 5) (fun _ _ => true) (fun _ => false) c2State "k" 3
        "e4" "g" "p" "T").2 =
      [OutMsg.moveMade "g" "e4"]) := by
  have hd := c2_time_limit_disqualification 5 10 0 (fun _ _ => true) (fun _ => false)
    c2State "k" "e4" "g" "p" "T" "q" c2Board Color.white [("p", 0)]
    (by decide) rfl rfl rfl rfl rfl
  have hp := c2_time_limit_disqualification 5 3 0 (fun _ _ => true) (fun _ => false)
    c2State "k" "e4" "g" "p" "T" "q" c2Board Color.white [("p", 0)]
    (by decide) rfl rfl rfl rfl rfl
  exact ⟨(hd.1 (by decide)).2.1, (hp.2 (by decide)).2⟩

end ChessArena
